import Mathlib

/-!
Shallow embedding of the OpAPI booking engine (loyality7/OpAPI) in Lean 4.

The definitions below are translated from the JavaScript source:
  * src/models/Hospital.js           — hospital schema and calculateFees (two variants)
  * src/models/Booking.js            — booking schema (persisted breakdown shape)
  * src/controllers/bookingController.js — createBooking (two variants), verifyPayment,
    updateBookingStatus, updateCodPaymentStatus, cancelBooking
  * src/unnamed/part_007             — manageBooking

Mongo documents become Lean structures; the booking collection is a `List Booking`
in insertion order; asynchronous collaborators (Razorpay order creation, refund,
signature verification) are Boolean oracles passed as arguments.  Instants are
milliseconds since the Unix epoch as `Int`, exactly the representation JavaScript
`Date` arithmetic uses.  Money is `Nat` (whole rupees, as in the source).
-/

namespace OpAPI

/-- Booking lifecycle status, from the `status` enum of src/models/Booking.js. -/
inductive BookingStatus where
  | pending
  | confirmed
  | rejected
  | cancelled
  | completed
deriving DecidableEq, Repr

/-- Payment method, from the `payment.method` enum of src/models/Booking.js. -/
inductive PaymentMethod where
  | online
  | cod
deriving DecidableEq, Repr

/-- Payment status, from the `payment.status` enum of src/models/Booking.js. -/
inductive PaymentStatus where
  | pending
  | completed
  | failed
  | refunded
deriving DecidableEq, Repr

/-- Hospital approval status, from the `status` enum of src/models/Hospital.js. -/
inductive HospitalApproval where
  | pending
  | approved
  | rejected
deriving DecidableEq, Repr

/-- Per-slot capacity settings, from `slotSettings` in src/models/Hospital.js
(second variant, lines 357-368). -/
structure SlotSettings where
  patientsPerSlot : Nat
  slotDuration : Nat
deriving DecidableEq, Repr

/-- The hospital fields read by the booking engine, from src/models/Hospital.js.
`slotSettings` is optional to model the JavaScript optional-chaining access
`hospital.slotSettings?.slotDuration` in the controller. -/
structure Hospital where
  id : Nat
  name : String
  opBookingPrice : Nat
  status : HospitalApproval
  isOpen : Bool
  emergencyServices : Bool
  maxOpBookingsPerDay : Nat
  slotSettings : Option SlotSettings
deriving DecidableEq, Repr

/-- The persisted fee breakdown, from `payment.breakdown` of src/models/Booking.js
(first variant, lines 63-80).  The schema declares exactly the fields
`platformFee`, `emergencyFee` (default 0), `gst`, `total`; a `basePrice` key
passed by the controller is not in the schema and is dropped by Mongoose
strict mode, so it does not appear here. -/
structure Breakdown where
  platformFee : Nat
  emergencyFee : Nat
  gst : Nat
  total : Nat
deriving DecidableEq, Repr

/-- The payment sub-record of a booking, from src/models/Booking.js. -/
structure Payment where
  method : PaymentMethod
  amount : Nat
  status : PaymentStatus
  breakdown : Breakdown
deriving DecidableEq, Repr

/-- A persisted booking, from src/models/Booking.js (first variant).  `id` models
the Mongo `_id`; `appointmentDate` is milliseconds since the epoch. -/
structure Booking where
  id : Nat
  hospital : Nat
  appointmentDate : Int
  timeSlot : String
  tokenNumber : String
  status : BookingStatus
  isEmergency : Bool
  payment : Payment
  rejectionReason : Option String
  completionNotes : Option String
deriving DecidableEq, Repr

/-- Models `Math.round(x * (pct/100))` for a nonnegative amount `x`, as used by
both `calculateFees` variants in src/models/Hospital.js.  JavaScript
`Math.round` rounds half toward positive infinity, which for nonnegative
arguments is `(pct * x + 50) / 100` in floor division. -/
def mathRoundPct (pct x : Nat) : Nat :=
  (pct * x + 50) / 100

/-- Result of the current `calculateFees` (src/models/Hospital.js, second
variant, lines 393-405). -/
structure FeeBreakdown where
  basePrice : Nat
  platformFee : Nat
  gst : Nat
  totalAmount : Nat
deriving DecidableEq, Repr

/-- Embeds `hospitalSchema.methods.calculateFees`, src/models/Hospital.js lines 393-405
(the variant paired with the slot-settings schema): flat platform fee of 9,
GST at 18% of the platform fee only, and a total that also includes the
hospital's base booking price. -/
def calculateFees (opBookingPrice : Nat) : FeeBreakdown :=
  let basePrice := opBookingPrice
  let platformFee := 9
  let gst := mathRoundPct 18 platformFee
  let totalAmount := basePrice + platformFee + gst
  { basePrice := basePrice, platformFee := platformFee, gst := gst,
    totalAmount := totalAmount }

/-- Result of the legacy `calculateFees` (src/models/Hospital.js, first variant,
lines 177-191), which also exposes the `subtotal`. -/
structure FeeBreakdownLegacy where
  basePrice : Nat
  platformFee : Nat
  subtotal : Nat
  gst : Nat
  totalAmount : Nat
deriving DecidableEq, Repr

/-- Embeds `hospitalSchema.methods.calculateFees`, src/models/Hospital.js lines 177-191
(legacy variant): platform fee is 10% of the base price, GST is 18% of the
subtotal, total is subtotal plus GST. -/
def calculateFeesLegacy (opBookingPrice : Nat) : FeeBreakdownLegacy :=
  let basePrice := opBookingPrice
  let platformFee := mathRoundPct 10 basePrice
  let subtotal := basePrice + platformFee
  let gst := mathRoundPct 18 subtotal
  let totalAmount := subtotal + gst
  { basePrice := basePrice, platformFee := platformFee, subtotal := subtotal,
    gst := gst, totalAmount := totalAmount }

/-- Days from the Unix epoch (1970-01-01) to the civil date `y-m-d` in the
proleptic Gregorian calendar, for years ≥ 1 (the civil-from-days algorithm).
This models the day component of JavaScript `Date.UTC(y, m-1, d, ...)`. -/
def daysFromCivil (y m d : Nat) : Int :=
  let yy := if m ≤ 2 then y - 1 else y
  let era := yy / 400
  let yoe := yy % 400
  let mp := if m ≤ 2 then m + 9 else m - 3
  let doy := (153 * mp + 2) / 5 + d - 1
  let doe := yoe * 365 + yoe / 4 - yoe / 100 + doy
  (((era * 146097 + doe : Nat)) : Int) - 719468

/-- Milliseconds since the Unix epoch of the UTC civil datetime
`y-m-d hh:mi`, modelling `Date.UTC(year, month - 1, day, hour24, minutes)`
in createBooking (src/controllers/bookingController.js line 70). -/
def utcMs (y m d hh mi : Nat) : Int :=
  daysFromCivil y m d * 86400000 + (hh : Int) * 3600000 + (mi : Int) * 60000

/-- The fixed IST offset added by createBooking:
`5.5 * 60 * 60 * 1000` milliseconds (src/controllers/bookingController.js line 53). -/
def istOffsetMs : Int := 19800000

/-- Local midnight of the local day containing instant `t`, for a server whose
local timezone is `tz` milliseconds east of UTC.  Models
`d.setHours(0, 0, 0, 0)` on a server `Date`, which truncates in
server-local time. -/
def startOfLocalDay (tz t : Int) : Int :=
  ((t + tz).fdiv 86400000) * 86400000 - tz

/-- AM/PM marker of the 12-hour clock pattern. -/
inductive Period where
  | am
  | pm
deriving DecidableEq, Repr

/-- Converts 12-hour to 24-hour time, exactly the branch structure of
src/controllers/bookingController.js lines 62-67. -/
def to24Hour (h : Nat) (p : Period) : Nat :=
  match p with
  | .pm => if h ≠ 12 then h + 12 else h
  | .am => if h = 12 then 0 else h

/-- The DD-MM-YYYY date regex of src/controllers/bookingController.js line 36,
stated on the parsed numeric components: day 01-31, month 01-12, a 4-digit
year. -/
def dateFormatOk (day month year : Nat) : Bool :=
  1 ≤ day && day ≤ 31 && 1 ≤ month && month ≤ 12 && year ≤ 9999

/-- The HH:MM AM/PM time regex of src/controllers/bookingController.js line 44,
stated on the parsed numeric components: hour 1-12, minute 0-59. -/
def timeFormatOk (hour12 minute : Nat) : Bool :=
  1 ≤ hour12 && hour12 ≤ 12 && minute ≤ 59

/-- Embeds `hospital.name.substring(0, 3).toUpperCase()`
(src/controllers/bookingController.js line 153), stated on the character
list of the name. -/
def prefix3 (s : String) : String :=
  String.mk ((s.data.take 3).map Char.toUpper)

/-- Embeds `n.toString().padStart(3, '0')`
(src/controllers/bookingController.js line 154). -/
def padStart3 (n : Nat) : String :=
  let s := toString n
  if s.length < 3 then String.mk (List.replicate (3 - s.length) '0') ++ s else s

/-- The request body fields read by createBooking
(src/controllers/bookingController.js lines 17-33), with the date and time
strings given by their parsed numeric components next to the raw display
string.  `isEmergency` is a flag a client may submit; the controller never
destructures or reads it. -/
structure CreateInput where
  hospitalId : Nat
  day : Nat
  month : Nat
  year : Nat
  hour12 : Nat
  minute : Nat
  period : Period
  timeSlot : String
  paymentMethod : PaymentMethod
  isEmergency : Bool
deriving DecidableEq, Repr

/-- The failure responses of createBooking
(src/controllers/bookingController.js, first variant), in source order:
date format (line 38), time format (line 46), past appointment (line 83),
pending booking at the exact instant (line 96), hospital not
approved/open (line 109), slot capacity reached (line 130), and the catch
branch reached when Razorpay order creation throws (line 216). -/
inductive CreateErr where
  | invalidDateFormat
  | invalidTimeFormat
  | pastAppointment
  | slotAlreadyBooked
  | hospitalUnavailable
  | slotFull
  | gatewayFailure
deriving DecidableEq, Repr

/-- Equality on Except results is decidable componentwise. -/
instance {ε α : Type} [DecidableEq ε] [DecidableEq α] : DecidableEq (Except ε α) := fun
  | .ok a, .ok b =>
    if h : a = b then .isTrue (by rw [h]) else .isFalse (by simp [h])
  | .ok _, .error _ => .isFalse (by simp)
  | .error _, .ok _ => .isFalse (by simp)
  | .error a, .error b =>
    if h : a = b then .isTrue (by rw [h]) else .isFalse (by simp [h])

/-- Post-state of the booking collection together with the HTTP response. -/
structure CreateResult where
  db : List Booking
  response : Except CreateErr Booking
deriving DecidableEq, Repr

/-- True when an Except value is a success. -/
def respOk {ε α : Type} : Except ε α → Bool
  | .ok _ => true
  | .error _ => false

/-- Embeds `hospital.slotSettings?.slotDuration || 30`
(src/controllers/bookingController.js line 114): the schema default 30 when
slot settings are absent, and JavaScript `||` also maps a zero duration
to 30. -/
def slotDurationOf (h : Hospital) : Nat :=
  match h.slotSettings with
  | some s => if s.slotDuration = 0 then 30 else s.slotDuration
  | none => 30

/-- Embeds `hospital.slotSettings?.patientsPerSlot || 1`
(src/controllers/bookingController.js line 115). -/
def patientsPerSlotOf (h : Hospital) : Nat :=
  match h.slotSettings with
  | some s => if s.patientsPerSlot = 0 then 1 else s.patientsPerSlot
  | none => 1

/-- The slot-bucket occupancy query of createBooking
(src/controllers/bookingController.js lines 120-127): pending or confirmed
bookings of the hospital with appointment instant in
`[startOfSlot, endOfSlot)`. -/
def slotBucketCount (db : List Booking) (hid : Nat) (startOfSlot endOfSlot : Int) :
    Nat :=
  db.countP fun b =>
    b.hospital == hid && startOfSlot ≤ b.appointmentDate
      && b.appointmentDate < endOfSlot
      && (b.status == .pending || b.status == .confirmed)

/-- The same-day booking-count query used for token allocation
(src/controllers/bookingController.js lines 139-150): bookings of the
hospital whose appointment falls in the server-local day of `t`
(`setHours(0,0,0,0)` to `setHours(23,59,59,999)`, upper bound exclusive),
with no status filter. -/
def dayBucketCount (tz : Int) (db : List Booking) (hid : Nat) (t : Int) : Nat :=
  let startOfDay := startOfLocalDay tz t
  let endOfDay := startOfDay + 86399999
  db.countP fun b =>
    b.hospital == hid && startOfDay ≤ b.appointmentDate
      && b.appointmentDate < endOfDay

/-- The booking record built and saved by createBooking
(src/controllers/bookingController.js lines 135-191): fees from the
hospital's calculateFees, the token from the hospital-name prefix and the
count of that hospital's bookings whose appointment falls on the same
server-local day (no status filter), and a `pending` status.  The persisted
breakdown keeps only the schema fields of src/models/Booking.js lines 63-80:
the `basePrice` key passed by the controller is dropped and `emergencyFee`
takes its schema default 0; `isEmergency` likewise takes its schema default
`false` because the controller never sets it. -/
def newBooking (tz : Int) (db : List Booking) (inp : CreateInput)
    (hospital : Hospital) (appointmentDateTime : Int) : Booking :=
  let fees := calculateFees hospital.opBookingPrice
  let existingBookingsCount :=
    dayBucketCount tz db inp.hospitalId appointmentDateTime
  let tokenNumber :=
    prefix3 hospital.name ++ padStart3 (existingBookingsCount + 1)
  { id := db.length
    hospital := inp.hospitalId
    appointmentDate := appointmentDateTime
    timeSlot := inp.timeSlot
    tokenNumber := tokenNumber
    status := .pending
    isEmergency := false
    payment := {
      method := inp.paymentMethod
      amount := fees.totalAmount
      status := .pending
      breakdown := {
        platformFee := fees.platformFee
        emergencyFee := 0
        gst := fees.gst
        total := fees.totalAmount } }
    rejectionReason := none
    completionNotes := none }

/-- createBooking after the date/time/past-check gates
(src/controllers/bookingController.js lines 88-217): the exact-instant
pending check, the approved-and-open hospital lookup, the per-slot capacity
check, fee calculation, token allocation, persistence, and the Razorpay
order for online payments.  `tz` is the server-local timezone offset in
milliseconds (used by `setHours` when bucketing the day for the token
count); `gatewayOk` is the Razorpay order-creation oracle.  Note the
original's day-count query for the token has no status filter, and its
slot-capacity query counts pending and confirmed bookings; the persisted
breakdown keeps only the schema fields (basePrice is dropped, emergencyFee
defaults to 0). -/
def createBookingCont (tz : Int) (hospitals : List Hospital) (gatewayOk : Bool)
    (db : List Booking) (inp : CreateInput) (appointmentDateTime : Int) :
    CreateResult :=
  if db.any fun b =>
      b.hospital == inp.hospitalId && b.appointmentDate == appointmentDateTime
        && b.status == .pending then
    ⟨db, .error .slotAlreadyBooked⟩
  else
    match hospitals.find? fun h =>
        h.id == inp.hospitalId && h.status == .approved && h.isOpen with
    | none => ⟨db, .error .hospitalUnavailable⟩
    | some hospital =>
      let slotDuration := slotDurationOf hospital
      let patientsPerSlot := patientsPerSlotOf hospital
      let startOfSlot := appointmentDateTime
      let endOfSlot := startOfSlot + (slotDuration : Int) * 60000
      let existingBookingsInSlot :=
        slotBucketCount db inp.hospitalId startOfSlot endOfSlot
      if patientsPerSlot ≤ existingBookingsInSlot then
        ⟨db, .error .slotFull⟩
      else
        let booking := newBooking tz db inp hospital appointmentDateTime
        let db2 := db ++ [booking]
        match inp.paymentMethod with
        | .online =>
          if gatewayOk then ⟨db2, .ok booking⟩ else ⟨db2, .error .gatewayFailure⟩
        | .cod => ⟨db2, .ok booking⟩

/-- createBooking, src/controllers/bookingController.js lines 15-218 (first
variant): validates the date and time formats, builds the appointment
instant with `Date.UTC` from the parsed components, adds the IST offset to
both the appointment instant and the current time before comparing, and on
success continues with `createBookingCont`. -/
def createBooking (tz now : Int) (hospitals : List Hospital) (gatewayOk : Bool)
    (db : List Booking) (inp : CreateInput) : CreateResult :=
  if ¬ dateFormatOk inp.day inp.month inp.year then
    ⟨db, .error .invalidDateFormat⟩
  else if ¬ timeFormatOk inp.hour12 inp.minute then
    ⟨db, .error .invalidTimeFormat⟩
  else
    let istNow := now + istOffsetMs
    let hour24 := to24Hour inp.hour12 inp.period
    let appointmentDateTime := utcMs inp.year inp.month inp.day hour24 inp.minute
    let appointmentDateTimeIST := appointmentDateTime + istOffsetMs
    if appointmentDateTimeIST ≤ istNow then
      ⟨db, .error .pastAppointment⟩
    else
      createBookingCont tz hospitals gatewayOk db inp appointmentDateTime

/-- The claim-relevant fields of the second booking schema
(src/models/Booking.js, second variant), used by the second createBooking
variant; there the token number is a plain number. -/
structure BookingV2 where
  hospital : Nat
  appointmentDate : Int
  tokenNumber : Nat
  status : BookingStatus
  method : PaymentMethod
deriving DecidableEq, Repr

/-- The failure responses of the second createBooking variant
(src/controllers/bookingController.js lines 674-807): hospital not
approved/open (line 700), daily ceiling reached (line 720), and the catch
branch when Razorpay order creation throws. -/
inductive CreateV2Err where
  | hospitalUnavailable
  | noSlots
  | gatewayFailure
deriving DecidableEq, Repr

/-- Post-state and response of the second createBooking variant. -/
structure CreateV2Result where
  db : List BookingV2
  response : Except CreateV2Err BookingV2
deriving DecidableEq, Repr

/-- createBooking, src/controllers/bookingController.js lines 674-807 (second
variant): checks the hospital, then rejects when the day's confirmed or
pending bookings have reached `maxOpBookingsPerDay`; it performs no
per-slot capacity check.  The appointment instant is the parsed date
(`apptDayStart`, the local midnight the input date resolves to) plus the
slot start time; the day-count window is `[startOfDay, startOfDay +
23:59:59)` via `setHours(0,0,0)` and `setHours(23,59,59)`.  For COD the
booking is created already `confirmed`; online bookings stay `pending`.
Mongoose-level validation of the resulting record is not modelled. -/
def createBookingV2 (hospitals : List Hospital) (gatewayOk : Bool)
    (db : List BookingV2) (hospitalId : Nat) (apptDayStart : Int)
    (startHour startMin : Nat) (method : PaymentMethod) : CreateV2Result :=
  match hospitals.find? fun h =>
      h.id == hospitalId && h.status == .approved && h.isOpen with
  | none => ⟨db, .error .hospitalUnavailable⟩
  | some hospital =>
    let appointmentDateTime :=
      apptDayStart + (startHour : Int) * 3600000 + (startMin : Int) * 60000
    let bookingsCount := db.countP fun b =>
      b.hospital == hospitalId && apptDayStart ≤ b.appointmentDate
        && b.appointmentDate < apptDayStart + 86399000
        && (b.status == .confirmed || b.status == .pending)
    if hospital.maxOpBookingsPerDay ≤ bookingsCount then
      ⟨db, .error .noSlots⟩
    else
      let bookingStatus : BookingStatus :=
        match method with
        | .online => .pending
        | .cod => .confirmed
      let booking : BookingV2 := {
        hospital := hospitalId
        appointmentDate := appointmentDateTime
        tokenNumber := bookingsCount + 1
        status := bookingStatus
        method := method }
      let db2 := db ++ [booking]
      match method with
      | .online =>
        if gatewayOk then ⟨db2, .ok booking⟩ else ⟨db2, .error .gatewayFailure⟩
      | .cod => ⟨db2, .ok booking⟩

/-- The legal-transition table of updateBookingStatus
(src/controllers/bookingController.js lines 347-353). -/
def validTransitions : BookingStatus → List BookingStatus
  | .pending => [.confirmed, .rejected]
  | .confirmed => [.completed, .cancelled]
  | .rejected => []
  | .cancelled => []
  | .completed => []

/-- The failure responses of updateBookingStatus
(src/controllers/bookingController.js lines 334-392).  The illegal-transition
message names the attempted pair, carried here as constructor arguments. -/
inductive UpdateErr where
  | notFound
  | illegalTransition (src dst : BookingStatus)
  | missingRejectionReason
deriving DecidableEq, Repr

/-- Post-state and response of a status-writing handler. -/
structure UpdateResult where
  db : List Booking
  response : Except UpdateErr Booking
deriving DecidableEq, Repr

/-- updateBookingStatus, src/controllers/bookingController.js lines 334-392
(first variant, the hospital status-update handler): looks up the booking
scoped to the caller's hospital, rejects any transition absent from
`validTransitions` naming the from/to pair, requires a rejection reason for
rejections, then saves the new status with reason or notes. -/
def updateBookingStatus (db : List Booking) (hospitalId bookingId : Nat)
    (newStatus : BookingStatus) (rejectionReason completionNotes : Option String) :
    UpdateResult :=
  match db.find? fun b => b.id == bookingId && b.hospital == hospitalId with
  | none => ⟨db, .error .notFound⟩
  | some booking =>
    if ¬ (validTransitions booking.status).contains newStatus then
      ⟨db, .error (.illegalTransition booking.status newStatus)⟩
    else if newStatus = .rejected ∧ rejectionReason = none then
      ⟨db, .error .missingRejectionReason⟩
    else
      let updated := { booking with
        status := newStatus
        rejectionReason :=
          if newStatus = .rejected then rejectionReason else booking.rejectionReason
        completionNotes :=
          if newStatus = .completed then completionNotes else booking.completionNotes }
      ⟨db.map fun b => if b.id == bookingId then updated else b, .ok updated⟩

/-- The failure responses of manageBooking (src/unnamed/part_007 lines
1828-1908). -/
inductive ManageErr where
  | bookingNotFound
  | invalidStatus
  | missingRejectionReason
deriving DecidableEq, Repr

/-- Post-state and response of manageBooking. -/
structure ManageResult where
  db : List Booking
  response : Except ManageErr Booking
deriving DecidableEq, Repr

/-- manageBooking, src/unnamed/part_007 lines 1828-1908 (the hospital
manage-booking handler): accepts any requested status among confirmed,
rejected, completed — with no check against the booking's current
status — requires a reason for rejections, and writes the new status with
`findOneAndUpdate` (validators skipped). -/
def manageBooking (db : List Booking) (hospitalId bookingId : Nat)
    (status : BookingStatus) (rejectionReason : Option String) : ManageResult :=
  match db.find? fun b => b.id == bookingId && b.hospital == hospitalId with
  | none => ⟨db, .error .bookingNotFound⟩
  | some booking =>
    if ¬ [BookingStatus.confirmed, .rejected, .completed].contains status then
      ⟨db, .error .invalidStatus⟩
    else if status = .rejected ∧ rejectionReason = none then
      ⟨db, .error .missingRejectionReason⟩
    else
      let updated := { booking with
        status := status
        rejectionReason :=
          if status = .rejected then rejectionReason else booking.rejectionReason }
      ⟨db.map fun b => if b.id == bookingId then updated else b, .ok updated⟩

/-- The failure responses of verifyPayment
(src/controllers/bookingController.js lines 221-248). -/
inductive VerifyErr where
  | notFound
  | invalidPayment
deriving DecidableEq, Repr

/-- Post-state and response of verifyPayment. -/
structure VerifyResult where
  db : List Booking
  response : Except VerifyErr Booking
deriving DecidableEq, Repr

/-- verifyPayment, src/controllers/bookingController.js lines 221-248: after
the HMAC signature comparison (the oracle `signatureOk`), marks the payment
completed and the booking confirmed unconditionally, with no check of the
booking's current status. -/
def verifyPayment (db : List Booking) (bookingId : Nat) (signatureOk : Bool) :
    VerifyResult :=
  match db.find? fun b => b.id == bookingId with
  | none => ⟨db, .error .notFound⟩
  | some booking =>
    if ¬ signatureOk then ⟨db, .error .invalidPayment⟩
    else
      let updated := { booking with
        status := .confirmed
        payment := { booking.payment with status := .completed } }
      ⟨db.map fun b => if b.id == bookingId then updated else b, .ok updated⟩

/-- The failure responses of updateCodPaymentStatus
(src/controllers/bookingController.js lines 431-508). -/
inductive CodErr where
  | invalidPaymentStatus
  | notFound
  | notCod
deriving DecidableEq, Repr

/-- Post-state and response of updateCodPaymentStatus. -/
structure CodResult where
  db : List Booking
  response : Except CodErr Booking
deriving DecidableEq, Repr

/-- updateCodPaymentStatus, src/controllers/bookingController.js lines 431-508:
for a COD booking, sets the payment status to completed or failed; when
completed and the booking is still pending, the booking is confirmed. -/
def updateCodPaymentStatus (db : List Booking) (bookingId : Nat)
    (paymentStatus : PaymentStatus) : CodResult :=
  if ¬ (paymentStatus = .completed ∨ paymentStatus = .failed) then
    ⟨db, .error .invalidPaymentStatus⟩
  else
    match db.find? fun b => b.id == bookingId with
    | none => ⟨db, .error .notFound⟩
    | some booking =>
      if booking.payment.method ≠ .cod then ⟨db, .error .notCod⟩
      else
        let newStatus :=
          if paymentStatus = .completed ∧ booking.status = .pending then
            BookingStatus.confirmed
          else booking.status
        let updated := { booking with
          status := newStatus
          payment := { booking.payment with status := paymentStatus } }
        ⟨db.map fun b => if b.id == bookingId then updated else b, .ok updated⟩

/-- The failure responses of cancelBooking
(src/controllers/bookingController.js lines 511-575). -/
inductive CancelErr where
  | notFound
  | cannotCancel
  | refundFailed
deriving DecidableEq, Repr

/-- Post-state and response of cancelBooking. -/
structure CancelResult where
  db : List Booking
  response : Except CancelErr Booking
deriving DecidableEq, Repr

/-- cancelBooking, src/controllers/bookingController.js lines 511-575: only
pending or confirmed bookings may be cancelled; when the payment was made
online and completed, a refund is attempted first (the oracle `refundOk`),
and a refund failure returns an error before any state is saved; otherwise
the payment is marked refunded (when applicable), the status set to
cancelled, and the booking saved. -/
def cancelBooking (db : List Booking) (bookingId : Nat) (refundOk : Bool) :
    CancelResult :=
  match db.find? fun b => b.id == bookingId with
  | none => ⟨db, .error .notFound⟩
  | some booking =>
    if ¬ (booking.status = .pending ∨ booking.status = .confirmed) then
      ⟨db, .error .cannotCancel⟩
    else if booking.payment.method = .online ∧ booking.payment.status = .completed
        ∧ ¬ refundOk then
      ⟨db, .error .refundFailed⟩
    else
      let pay :=
        if booking.payment.method = .online ∧ booking.payment.status = .completed
        then { booking.payment with status := PaymentStatus.refunded }
        else booking.payment
      let updated := { booking with status := .cancelled, payment := pay }
      ⟨db.map fun b => if b.id == bookingId then updated else b, .ok updated⟩

/-! ### Concrete fixtures used by counterexamples and witnesses -/

/-- An approved, open hospital named "City General" with base price 100,
two patients per 30-minute slot, a daily ceiling of 1, and no emergency
services. -/
def cityGeneral : Hospital := {
  id := 1
  name := "City General"
  opBookingPrice := 100
  status := .approved
  isOpen := true
  emergencyServices := false
  maxOpBookingsPerDay := 1
  slotSettings := some { patientsPerSlot := 2, slotDuration := 30 } }

/-- A fixed current instant: 2024-12-20 00:00 UTC. -/
def testNow : Int := utcMs 2024 12 20 0 0

/-- A persisted pending COD booking at City General for 2024-12-25 10:00. -/
def bookingAt10 : Booking := {
  id := 0
  hospital := 1
  appointmentDate := utcMs 2024 12 25 10 0
  timeSlot := "10:00 AM"
  tokenNumber := "CIT001"
  status := .pending
  isEmergency := false
  payment := {
    method := .cod
    amount := 111
    status := .pending
    breakdown := { platformFee := 9, emergencyFee := 0, gst := 2, total := 111 } }
  rejectionReason := none
  completionNotes := none }

/-- A well-formed booking request at City General for 25-12-2024, 11:00 AM,
COD, with the emergency flag set by the client. -/
def inputAt11 : CreateInput := {
  hospitalId := 1
  day := 25
  month := 12
  year := 2024
  hour12 := 11
  minute := 0
  period := .am
  timeSlot := "11:00 AM"
  paymentMethod := .cod
  isEmergency := true }

/-- A confirmed booking paid online, eligible for refund on cancellation. -/
def paidConfirmed : Booking :=
  { bookingAt10 with
    status := .confirmed
    payment := { bookingAt10.payment with method := .online, status := .completed } }

/-! ### Helper lemmas about the createBooking control flow -/

/-- When the date and time formats are accepted and the offset-shifted
comparison deems the appointment in the future, createBooking reduces to
its post-gate continuation. -/
theorem createBooking_gates_pass (tz now : Int) (hs : List Hospital) (g : Bool)
    (db : List Booking) (inp : CreateInput)
    (hd : dateFormatOk inp.day inp.month inp.year = true)
    (ht : timeFormatOk inp.hour12 inp.minute = true)
    (hfut : ¬ (utcMs inp.year inp.month inp.day (to24Hour inp.hour12 inp.period)
      inp.minute + istOffsetMs ≤ now + istOffsetMs)) :
    createBooking tz now hs g db inp
      = createBookingCont tz hs g db inp
          (utcMs inp.year inp.month inp.day (to24Hour inp.hour12 inp.period)
            inp.minute) := by
  unfold createBooking
  simp only [hd, ht, if_neg hfut, not_true, if_false, ite_false, ite_true,
    Bool.true_eq_false, not_false_iff]

/-- The post-gate continuation never reports a past appointment or a bad
format: those responses arise only from the gates. -/
theorem createBookingCont_response_late (tz : Int) (hs : List Hospital)
    (g : Bool) (db : List Booking) (inp : CreateInput) (t : Int) :
    (createBookingCont tz hs g db inp t).response ≠ .error .pastAppointment
    ∧ (createBookingCont tz hs g db inp t).response ≠ .error .invalidDateFormat
    ∧ (createBookingCont tz hs g db inp t).response ≠ .error .invalidTimeFormat := by
  unfold createBookingCont
  dsimp only
  refine ⟨?_, ?_, ?_⟩ <;> intro h <;> (repeat' split at h) <;> simp_all

/-- On the success path (no pending booking at the exact instant, hospital
approved and open, slot bucket below capacity), the continuation persists
`newBooking` and answers it, except that an online payment with a failing
gateway answers the gateway error while still persisting the booking. -/
theorem createBookingCont_accepts (tz : Int) (hs : List Hospital) (g : Bool)
    (db : List Booking) (inp : CreateInput) (t : Int) (hospital : Hospital)
    (hnp : (db.any fun b => b.hospital == inp.hospitalId
      && b.appointmentDate == t && b.status == .pending) = false)
    (hfind : (hs.find? fun h => h.id == inp.hospitalId
      && h.status == .approved && h.isOpen) = some hospital)
    (hslot : ¬ (patientsPerSlotOf hospital
      ≤ slotBucketCount db inp.hospitalId t
          (t + (slotDurationOf hospital : Int) * 60000))) :
    createBookingCont tz hs g db inp t
      = if inp.paymentMethod = .online ∧ g = false then
          ⟨db ++ [newBooking tz db inp hospital t], .error .gatewayFailure⟩
        else
          ⟨db ++ [newBooking tz db inp hospital t],
            .ok (newBooking tz db inp hospital t)⟩ := by
  unfold createBookingCont
  dsimp only
  rw [hnp, hfind]
  simp only [Bool.false_eq_true, if_false, ite_false]
  rw [if_neg hslot]
  cases hm : inp.paymentMethod <;> cases hg : g <;> simp [hm, hg]

/-! ### Claim theorems -/

/-- C1 (counterexample): the manage-booking handler performs an illegal
transition without error: on a `cancelled` booking — whose pair
(cancelled, confirmed) is not in the legal-transition table — requesting
`confirmed` succeeds and the stored status changes to `confirmed`, with no
TransitionError. -/
theorem manageBooking_confirms_cancelled :
    (validTransitions .cancelled).contains .confirmed = false
    ∧ manageBooking [{ bookingAt10 with status := .cancelled }] 1 0 .confirmed none
        = ⟨[{ bookingAt10 with status := .confirmed }],
           .ok { bookingAt10 with status := .confirmed }⟩ := by
  exact ⟨rfl, rfl⟩

/-- C1 (amended): the transition table is enforced by the hospital
status-update handler alone: whenever the requested status is not among the
legal successors of the booking's current status, updateBookingStatus fails
with the illegal-transition error naming the from/to pair and leaves the
store unchanged.  The other writers (manageBooking, verifyPayment,
updateCodPaymentStatus) do not consult the table. -/
theorem updateBookingStatus_enforces_table (db : List Booking)
    (hospitalId bookingId : Nat) (newStatus : BookingStatus)
    (reason notes : Option String) (booking : Booking)
    (hfind : (db.find? fun b => b.id == bookingId && b.hospital == hospitalId)
      = some booking)
    (hillegal : (validTransitions booking.status).contains newStatus = false) :
    updateBookingStatus db hospitalId bookingId newStatus reason notes
      = ⟨db, .error (.illegalTransition booking.status newStatus)⟩ := by
  unfold updateBookingStatus
  rw [hfind]
  dsimp only
  rw [if_pos (show ¬ ((validTransitions booking.status).contains newStatus
    = true) by rw [hillegal]; exact Bool.false_ne_true)]

/-- Witness for C1's amended theorem: a completed booking cannot be
re-confirmed through updateBookingStatus. -/
theorem updateBookingStatus_enforces_table_witness :
    updateBookingStatus [{ bookingAt10 with status := .completed }] 1 0
        .confirmed none none
      = ⟨[{ bookingAt10 with status := .completed }],
         .error (.illegalTransition .completed .confirmed)⟩ :=
  updateBookingStatus_enforces_table _ 1 0 .confirmed none none
    { bookingAt10 with status := .completed } (by rfl) (by rfl)

/-- C3 (counterexample): the current calculateFees does not satisfy
`total = platformFee + emergencyFee + tax` — at base price 100 the total is
111 while platformFee + 0 + gst is 11 — and the legacy variant's platform
fee is price-dependent, not a fixed constant. -/
theorem calculateFees_not_platform_plus_emergency_plus_tax :
    (calculateFees 100).totalAmount
        ≠ (calculateFees 100).platformFee + 0 + (calculateFees 100).gst
    ∧ (calculateFeesLegacy 100).platformFee
        ≠ (calculateFeesLegacy 200).platformFee := by
  exact ⟨by decide, by decide⟩

/-- C3 (amended): calculateFees takes no emergency flag and returns no
emergency fee.  The current variant returns the fixed platform fee 9,
gst = round(0.18 × platformFee) = 2, and a total that also includes the
base price; the legacy variant computes the platform fee as 10% of the base
price and its total as basePrice + platformFee + gst. -/
theorem calculateFees_actual_shape (p : Nat) :
    calculateFees p
        = { basePrice := p, platformFee := 9, gst := 2, totalAmount := p + 11 }
    ∧ (calculateFeesLegacy p).platformFee = mathRoundPct 10 p
    ∧ (calculateFeesLegacy p).totalAmount
        = p + (calculateFeesLegacy p).platformFee + (calculateFeesLegacy p).gst := by
  refine ⟨?_, rfl, rfl⟩
  simp only [calculateFees, mathRoundPct]

/-- C4 (code_bug): the booking persisted by createBooking stores a breakdown
whose total does not equal the sum of its stored components: at base price
100 the stored breakdown is platformFee 9, emergencyFee 0, gst 2,
total 111, because the total includes the base price while the schema
drops the basePrice key from the breakdown. -/
theorem persisted_breakdown_total_not_component_sum :
    ((createBooking 0 testNow [cityGeneral] true [] inputAt11).db.all fun b =>
        b.payment.breakdown.total
          == b.payment.breakdown.platformFee + b.payment.breakdown.emergencyFee
              + b.payment.breakdown.gst) = false
    ∧ (createBooking 0 testNow [cityGeneral] true [] inputAt11).db.length = 1 := by
  exact ⟨rfl, rfl⟩

/-- C5 (counterexample): at current instant 2024-12-25 04:00 UTC — whose IST
civil reading is 09:30 — a request for 25-12-2024 09:00 AM, whose civil
time in the IST offset is half an hour in the past, is accepted rather
than rejected as a past appointment. -/
theorem past_civil_time_accepted_within_offset :
    utcMs 2024 12 25 9 0 < utcMs 2024 12 25 4 0 + istOffsetMs
    ∧ respOk (createBooking 0 (utcMs 2024 12 25 4 0) [cityGeneral] true []
        { inputAt11 with hour12 := 9, timeSlot := "09:00 AM" }).response = true := by
  exact ⟨by decide, rfl⟩

/-- C5 (amended): adding the IST offset to both sides cancels, so
createBooking rejects a request as a past appointment exactly when the
submitted civil date-time, read as a UTC clock value, is not strictly
after the current instant; in particular civil times in the IST-offset
past by less than 5.5 hours are accepted. -/
theorem past_check_cancels_offset (tz now : Int) (hs : List Hospital)
    (g : Bool) (db : List Booking) (inp : CreateInput)
    (hd : dateFormatOk inp.day inp.month inp.year = true)
    (ht : timeFormatOk inp.hour12 inp.minute = true) :
    (createBooking tz now hs g db inp).response = .error .pastAppointment
      ↔ utcMs inp.year inp.month inp.day (to24Hour inp.hour12 inp.period)
          inp.minute ≤ now := by
  unfold createBooking
  rw [if_neg (show ¬ ¬ dateFormatOk inp.day inp.month inp.year = true by
    simp [hd])]
  rw [if_neg (show ¬ ¬ timeFormatOk inp.hour12 inp.minute = true by simp [ht])]
  dsimp only
  by_cases hc : utcMs inp.year inp.month inp.day (to24Hour inp.hour12 inp.period)
      inp.minute + istOffsetMs ≤ now + istOffsetMs
  · rw [if_pos hc]
    simpa using (Int.add_le_add_iff_right istOffsetMs).mp hc
  · rw [if_neg hc]
    have hlate := (createBookingCont_response_late tz hs g db inp
      (utcMs inp.year inp.month inp.day (to24Hour inp.hour12 inp.period)
        inp.minute)).1
    constructor
    · intro h; exact absurd h hlate
    · intro h; exact absurd ((Int.add_le_add_iff_right istOffsetMs).mpr h) hc

/-- Witness for C5's amended theorem: the request of the spec's example —
25-12-2024 09:30 AM submitted at IST civil time 26-12-2024 10:00 AM
(2024-12-26 04:30 UTC) — is rejected as past. -/
theorem past_check_cancels_offset_witness :
    (createBooking 0 (utcMs 2024 12 26 4 30) [cityGeneral] true []
        { inputAt11 with hour12 := 9, minute := 30, timeSlot := "09:30 AM" }).response
      = .error .pastAppointment :=
  (past_check_cancels_offset 0 (utcMs 2024 12 26 4 30) [cityGeneral] true []
    { inputAt11 with hour12 := 9, minute := 30, timeSlot := "09:30 AM" }
    (by rfl) (by rfl)).mpr (by decide)

/-- C6 (confirmed): cancelling a pending or confirmed booking whose payment
is online and completed attempts the refund first: when the refund fails,
cancelBooking returns the refund error with the store unchanged — the
booking keeps its prior status and no refunded payment status is
recorded — and when the refund succeeds, the booking is saved cancelled
with the payment marked refunded. -/
theorem cancelBooking_refund_before_status_change (db : List Booking)
    (bookingId : Nat) (booking : Booking)
    (hfind : (db.find? fun b => b.id == bookingId) = some booking)
    (hstat : booking.status = .pending ∨ booking.status = .confirmed)
    (hm : booking.payment.method = .online)
    (hp : booking.payment.status = .completed) :
    cancelBooking db bookingId false = ⟨db, .error .refundFailed⟩
    ∧ (cancelBooking db bookingId true).response
        = .ok { booking with
                status := .cancelled
                payment := { booking.payment with status := .refunded } } := by
  unfold cancelBooking
  rw [hfind]
  dsimp only
  constructor
  · rw [if_neg (not_not_intro hstat), if_pos ⟨hm, hp, by simp⟩]
  · rw [if_neg (not_not_intro hstat),
      if_neg (show ¬ (booking.payment.method = .online
        ∧ booking.payment.status = .completed ∧ ¬ true = true) by simp),
      if_pos ⟨hm, hp⟩]

/-- Witness for C6: a concrete confirmed, online-paid booking. -/
theorem cancelBooking_refund_before_status_change_witness :
    cancelBooking [paidConfirmed] 0 false = ⟨[paidConfirmed], .error .refundFailed⟩
    ∧ (cancelBooking [paidConfirmed] 0 true).response
        = .ok { paidConfirmed with
                status := .cancelled
                payment := { paidConfirmed.payment with status := .refunded } } :=
  cancelBooking_refund_before_status_change [paidConfirmed] 0 paidConfirmed
    (by rfl) (.inr (by rfl)) (by rfl) (by rfl)

/-- C7 (counterexample): when Razorpay order creation fails for an online
booking, the already-saved booking is not deleted: the handler answers the
gateway error while the store still holds the new pending booking. -/
theorem gateway_failure_leaves_booking_persisted :
    (createBooking 0 testNow [cityGeneral] false []
        { inputAt11 with paymentMethod := .online }).response
      = .error .gatewayFailure
    ∧ (createBooking 0 testNow [cityGeneral] false []
        { inputAt11 with paymentMethod := .online }).db.length = 1
    ∧ ((createBooking 0 testNow [cityGeneral] false []
        { inputAt11 with paymentMethod := .online }).db.all fun b =>
          b.status == .pending) = true := by
  exact ⟨rfl, rfl, rfl⟩

/-- The continuation grows the store by exactly one booking whenever it
answers the gateway error: the save precedes the order creation and no
compensating delete exists. -/
theorem createBookingCont_gateway_persists (tz : Int) (hs : List Hospital)
    (g : Bool) (db : List Booking) (inp : CreateInput) (t : Int) :
    (createBookingCont tz hs g db inp t).response = .error .gatewayFailure →
    (createBookingCont tz hs g db inp t).db.length = db.length + 1 := by
  unfold createBookingCont
  dsimp only
  (repeat' split) <;> intro hgw <;> simp_all

/-- C7 (amended): on gateway order-creation failure the booking is not rolled
back: whenever createBooking answers the gateway error, the booking store
has grown by one (the persisted pending booking remains). -/
theorem gateway_failure_no_rollback (tz now : Int) (hs : List Hospital)
    (g : Bool) (db : List Booking) (inp : CreateInput)
    (hgw : (createBooking tz now hs g db inp).response = .error .gatewayFailure) :
    (createBooking tz now hs g db inp).db.length = db.length + 1 := by
  unfold createBooking at hgw ⊢
  dsimp only at hgw ⊢
  by_cases hd : ¬ dateFormatOk inp.day inp.month inp.year = true
  · rw [if_pos hd] at hgw; exact absurd hgw (by simp)
  · rw [if_neg hd] at hgw ⊢
    by_cases ht : ¬ timeFormatOk inp.hour12 inp.minute = true
    · rw [if_pos ht] at hgw; exact absurd hgw (by simp)
    · rw [if_neg ht] at hgw ⊢
      by_cases hc : utcMs inp.year inp.month inp.day
          (to24Hour inp.hour12 inp.period) inp.minute + istOffsetMs
            ≤ now + istOffsetMs
      · rw [if_pos hc] at hgw; exact absurd hgw (by simp)
      · rw [if_neg hc] at hgw ⊢
        exact createBookingCont_gateway_persists tz hs g db inp _ hgw

/-- Witness for C7's amended theorem: the concrete gateway-failure run grows
the store from zero to one booking. -/
theorem gateway_failure_no_rollback_witness :
    (createBooking 0 testNow [cityGeneral] false []
        { inputAt11 with paymentMethod := .online }).db.length
      = ([] : List Booking).length + 1 :=
  gateway_failure_no_rollback 0 testNow [cityGeneral] false []
    { inputAt11 with paymentMethod := .online } (by rfl)

/-- C2 (counterexample): a request is accepted although the day's
pending-or-confirmed count (1) has already reached the hospital's
maxOpBookingsPerDay (1): the primary createBooking never consults the
daily ceiling, only the per-slot count. -/
theorem createBooking_ignores_daily_ceiling :
    cityGeneral.maxOpBookingsPerDay
        ≤ ([bookingAt10].countP fun b =>
            b.hospital == inputAt11.hospitalId
              && startOfLocalDay 0 (utcMs 2024 12 25 11 0) ≤ b.appointmentDate
              && b.appointmentDate
                  < startOfLocalDay 0 (utcMs 2024 12 25 11 0) + 86399999
              && (b.status == .pending || b.status == .confirmed))
    ∧ respOk (createBooking 0 testNow [cityGeneral] true [bookingAt10]
        inputAt11).response = true := by
  exact ⟨by decide, rfl⟩

/-- C2 (amended): the two capacity checks live in different createBooking
variants and are never combined: the primary variant rejects for capacity
exactly when the slot-bucket pending-or-confirmed count has reached
patientsPerSlot, independently of maxBookingsPerDay, while the second
variant rejects exactly when the day's pending-or-confirmed count has
reached maxOpBookingsPerDay, with no per-slot check. -/
theorem capacity_checks_split_across_variants (tz now : Int)
    (hs : List Hospital) (g : Bool) (db : List Booking) (inp : CreateInput)
    (hospital : Hospital) (appt : Int)
    (happt : appt = utcMs inp.year inp.month inp.day
      (to24Hour inp.hour12 inp.period) inp.minute)
    (hd : dateFormatOk inp.day inp.month inp.year = true)
    (ht : timeFormatOk inp.hour12 inp.minute = true)
    (hfut : ¬ (appt + istOffsetMs ≤ now + istOffsetMs))
    (hnp : (db.any fun b => b.hospital == inp.hospitalId
      && b.appointmentDate == appt && b.status == .pending) = false)
    (hfind : (hs.find? fun h => h.id == inp.hospitalId
      && h.status == .approved && h.isOpen) = some hospital)
    (db2 : List BookingV2) (hs2 : List Hospital) (g2 : Bool) (hid2 : Nat)
    (dayStart : Int) (hh mm : Nat) (m2 : PaymentMethod) (hospital2 : Hospital)
    (hfind2 : (hs2.find? fun h => h.id == hid2
      && h.status == .approved && h.isOpen) = some hospital2) :
    ((createBooking tz now hs g db inp).response = .error .slotFull
      ↔ patientsPerSlotOf hospital ≤ slotBucketCount db inp.hospitalId appt
          (appt + (slotDurationOf hospital : Int) * 60000))
    ∧ ((createBookingV2 hs2 g2 db2 hid2 dayStart hh mm m2).response
        = .error .noSlots
      ↔ hospital2.maxOpBookingsPerDay ≤ db2.countP fun b =>
          b.hospital == hid2 && dayStart ≤ b.appointmentDate
            && b.appointmentDate < dayStart + 86399000
            && (b.status == .confirmed || b.status == .pending)) := by
  subst happt
  constructor
  · rw [createBooking_gates_pass tz now hs g db inp hd ht hfut]
    unfold createBookingCont
    dsimp only
    rw [hnp, hfind]
    simp only [Bool.false_eq_true, if_false, ite_false]
    by_cases hc : patientsPerSlotOf hospital
        ≤ slotBucketCount db inp.hospitalId
            (utcMs inp.year inp.month inp.day (to24Hour inp.hour12 inp.period)
              inp.minute)
            (utcMs inp.year inp.month inp.day (to24Hour inp.hour12 inp.period)
              inp.minute + (slotDurationOf hospital : Int) * 60000)
    · rw [if_pos hc]
      simpa using hc
    · rw [if_neg hc]
      constructor
      · intro h
        exfalso
        revert h
        cases inp.paymentMethod <;> cases g <;> simp
      · intro h; exact absurd h hc
  · unfold createBookingV2
    rw [hfind2]
    dsimp only
    by_cases hc2 : hospital2.maxOpBookingsPerDay ≤ db2.countP fun b =>
        b.hospital == hid2 && dayStart ≤ b.appointmentDate
          && b.appointmentDate < dayStart + 86399000
          && (b.status == .confirmed || b.status == .pending)
    · rw [if_pos hc2]
      simpa using hc2
    · rw [if_neg hc2]
      constructor
      · intro h
        exfalso
        revert h
        cases m2 <;> cases g2 <;> simp
      · intro h; exact absurd h hc2

/-- Witness for C2's amended theorem: with two pending bookings at 11:15 the
11:00 request is rejected as slot-full by the primary variant, and with one
pending booking on the day the second variant rejects at its ceiling of
one. -/
theorem capacity_checks_split_across_variants_witness :
    (createBooking 0 testNow [cityGeneral] true
        [{ bookingAt10 with appointmentDate := utcMs 2024 12 25 11 15 },
         { bookingAt10 with id := 1, appointmentDate := utcMs 2024 12 25 11 15 }]
        inputAt11).response = .error .slotFull
    ∧ (createBookingV2 [cityGeneral] true
        [{ hospital := 1, appointmentDate := utcMs 2024 12 25 10 0,
           tokenNumber := 1, status := .pending, method := .cod }]
        1 (utcMs 2024 12 25 0 0) 11 0 .cod).response = .error .noSlots := by
  constructor
  · exact (capacity_checks_split_across_variants 0 testNow [cityGeneral] true
      [{ bookingAt10 with appointmentDate := utcMs 2024 12 25 11 15 },
       { bookingAt10 with id := 1, appointmentDate := utcMs 2024 12 25 11 15 }]
      inputAt11 cityGeneral (utcMs 2024 12 25 11 0) (by rfl) (by rfl) (by rfl)
      (by decide) (by rfl) (by rfl)
      [] [cityGeneral] true 1 (utcMs 2024 12 25 0 0) 11 0 .cod cityGeneral
      (by rfl)).1.mpr (by decide)
  · exact (capacity_checks_split_across_variants 0 testNow [cityGeneral] true
      [] inputAt11 cityGeneral (utcMs 2024 12 25 11 0) (by rfl) (by rfl)
      (by rfl) (by decide) (by rfl) (by rfl)
      [{ hospital := 1, appointmentDate := utcMs 2024 12 25 10 0,
         tokenNumber := 1, status := .pending, method := .cod }]
      [cityGeneral] true 1 (utcMs 2024 12 25 0 0) 11 0 .cod cityGeneral
      (by rfl)).2.mpr (by decide)

/-- C8 (counterexample): a booking created from a request with the emergency
flag set receives token "CIT001" — hospital prefix plus the padded
sequence number, with no emergency-marker letter between them. -/
theorem emergency_booking_token_lacks_marker :
    inputAt11.isEmergency = true
    ∧ ((createBooking 0 testNow [cityGeneral] true [] inputAt11).db.all fun b =>
        b.tokenNumber == "CIT001") = true
    ∧ (createBooking 0 testNow [cityGeneral] true [] inputAt11).db.length = 1 := by
  exact ⟨rfl, by decide, rfl⟩

/-- C8 (amended): on the success path createBooking persists and returns a
booking whose token is the uppercased three-letter hospital prefix followed
by the three-digit-padded (same-day booking count + 1), with no emergency
marker; the whole outcome is independent of the request's emergency flag. -/
theorem token_is_prefix_and_daycount (tz now : Int) (hs : List Hospital)
    (g : Bool) (db : List Booking) (inp : CreateInput) (hospital : Hospital)
    (appt : Int)
    (happt : appt = utcMs inp.year inp.month inp.day
      (to24Hour inp.hour12 inp.period) inp.minute)
    (hd : dateFormatOk inp.day inp.month inp.year = true)
    (ht : timeFormatOk inp.hour12 inp.minute = true)
    (hfut : ¬ (appt + istOffsetMs ≤ now + istOffsetMs))
    (hnp : (db.any fun b => b.hospital == inp.hospitalId
      && b.appointmentDate == appt && b.status == .pending) = false)
    (hfind : (hs.find? fun h => h.id == inp.hospitalId
      && h.status == .approved && h.isOpen) = some hospital)
    (hslot : ¬ (patientsPerSlotOf hospital
      ≤ slotBucketCount db inp.hospitalId appt
          (appt + (slotDurationOf hospital : Int) * 60000)))
    (hg : g = true) :
    (createBooking tz now hs g db inp).response
        = .ok (newBooking tz db inp hospital appt)
    ∧ (newBooking tz db inp hospital appt).tokenNumber
        = prefix3 hospital.name
            ++ padStart3 (dayBucketCount tz db inp.hospitalId appt + 1)
    ∧ ∀ e : Bool, createBooking tz now hs g db { inp with isEmergency := e }
        = createBooking tz now hs g db inp := by
  subst happt
  subst hg
  refine ⟨?_, rfl, fun e => rfl⟩
  rw [createBooking_gates_pass tz now hs true db inp hd ht hfut,
    createBookingCont_accepts tz hs true db inp _ hospital hnp hfind hslot]
  rw [if_neg (show ¬ (inp.paymentMethod = .online ∧ true = false) by simp)]

/-- Witness for C8's amended theorem: with one same-day booking already
stored, the new booking's token is "CIT002". -/
theorem token_is_prefix_and_daycount_witness :
    (createBooking 0 testNow [cityGeneral] true [bookingAt10] inputAt11).response
        = .ok (newBooking 0 [bookingAt10] inputAt11 cityGeneral
            (utcMs 2024 12 25 11 0))
    ∧ (newBooking 0 [bookingAt10] inputAt11 cityGeneral
        (utcMs 2024 12 25 11 0)).tokenNumber
        = prefix3 cityGeneral.name
            ++ padStart3 (dayBucketCount 0 [bookingAt10] inputAt11.hospitalId
                (utcMs 2024 12 25 11 0) + 1)
    ∧ ∀ e : Bool, createBooking 0 testNow [cityGeneral] true [bookingAt10]
          { inputAt11 with isEmergency := e }
        = createBooking 0 testNow [cityGeneral] true [bookingAt10] inputAt11 :=
  token_is_prefix_and_daycount 0 testNow [cityGeneral] true [bookingAt10]
    inputAt11 cityGeneral (utcMs 2024 12 25 11 0) (by rfl) (by rfl) (by rfl)
    (by decide) (by rfl) (by rfl) (by decide) (by rfl)

/-- C9 (counterexample): an emergency-flagged request against City General —
whose emergencyServices is false — is accepted: no no-emergency-service
rejection exists anywhere in createBooking. -/
theorem emergency_request_accepted_without_service :
    cityGeneral.emergencyServices = false
    ∧ inputAt11.isEmergency = true
    ∧ respOk (createBooking 0 testNow [cityGeneral] true [] inputAt11).response
        = true := by
  exact ⟨rfl, rfl, rfl⟩

/-- C9 (amended): createBooking performs no emergency-service check: a
request whose emergency flag is set against a hospital without emergency
services is accepted whenever the generic validations pass; no
NO_EMERGENCY_SERVICE failure exists. -/
theorem createBooking_has_no_emergency_check (tz now : Int)
    (hs : List Hospital) (g : Bool) (db : List Booking) (inp : CreateInput)
    (hospital : Hospital) (appt : Int)
    (happt : appt = utcMs inp.year inp.month inp.day
      (to24Hour inp.hour12 inp.period) inp.minute)
    (hd : dateFormatOk inp.day inp.month inp.year = true)
    (ht : timeFormatOk inp.hour12 inp.minute = true)
    (hfut : ¬ (appt + istOffsetMs ≤ now + istOffsetMs))
    (hnp : (db.any fun b => b.hospital == inp.hospitalId
      && b.appointmentDate == appt && b.status == .pending) = false)
    (hfind : (hs.find? fun h => h.id == inp.hospitalId
      && h.status == .approved && h.isOpen) = some hospital)
    (hslot : ¬ (patientsPerSlotOf hospital
      ≤ slotBucketCount db inp.hospitalId appt
          (appt + (slotDurationOf hospital : Int) * 60000)))
    (hg : g = true)
    (hem : hospital.emergencyServices = false)
    (hflag : inp.isEmergency = true) :
    respOk (createBooking tz now hs g db inp).response = true := by
  subst happt
  subst hg
  rw [createBooking_gates_pass tz now hs true db inp hd ht hfut,
    createBookingCont_accepts tz hs true db inp _ hospital hnp hfind hslot]
  rw [if_neg (show ¬ (inp.paymentMethod = .online ∧ true = false) by simp)]
  rfl

/-- Witness for C9's amended theorem: the concrete emergency request against
City General is accepted. -/
theorem createBooking_has_no_emergency_check_witness :
    respOk (createBooking 0 testNow [cityGeneral] true [] inputAt11).response
      = true :=
  createBooking_has_no_emergency_check 0 testNow [cityGeneral] true []
    inputAt11 cityGeneral (utcMs 2024 12 25 11 0) (by rfl) (by rfl) (by rfl)
    (by decide) (by rfl) (by rfl) (by decide) (by rfl) (by rfl) (by rfl)

/-- C10 (confirmed): after the format and future gates, createBooking rejects
with the "time slot already booked" error exactly when some booking with
status pending exists for the same hospital at the exact appointment
instant — regardless of patientsPerSlot, and never triggered by confirmed
bookings alone — and in that case the store is unchanged. -/
theorem exact_instant_pending_rejection (tz now : Int) (hs : List Hospital)
    (g : Bool) (db : List Booking) (inp : CreateInput) (appt : Int)
    (happt : appt = utcMs inp.year inp.month inp.day
      (to24Hour inp.hour12 inp.period) inp.minute)
    (hd : dateFormatOk inp.day inp.month inp.year = true)
    (ht : timeFormatOk inp.hour12 inp.minute = true)
    (hfut : ¬ (appt + istOffsetMs ≤ now + istOffsetMs)) :
    ((createBooking tz now hs g db inp).response = .error .slotAlreadyBooked
      ↔ (db.any fun b => b.hospital == inp.hospitalId
          && b.appointmentDate == appt && b.status == .pending) = true)
    ∧ ((db.any fun b => b.hospital == inp.hospitalId
          && b.appointmentDate == appt && b.status == .pending) = true →
        (createBooking tz now hs g db inp).db = db) := by
  subst happt
  rw [createBooking_gates_pass tz now hs g db inp hd ht hfut]
  unfold createBookingCont
  dsimp only
  by_cases hany : (db.any fun b => b.hospital == inp.hospitalId
      && b.appointmentDate == utcMs inp.year inp.month inp.day
          (to24Hour inp.hour12 inp.period) inp.minute
      && b.status == .pending) = true
  · rw [if_pos hany]
    exact ⟨by simpa using hany, fun _ => rfl⟩
  · rw [if_neg hany]
    constructor
    · constructor
      · intro h
        exfalso
        revert h
        (repeat' split) <;> simp
      · intro h; exact absurd h hany
    · intro h; exact absurd h hany

/-- Witness for C10: a pending booking at exactly 2024-12-25 11:00 blocks the
11:00 request with the already-booked error and leaves the store as it
was. -/
theorem exact_instant_pending_rejection_witness :
    (createBooking 0 testNow [cityGeneral] true
        [{ bookingAt10 with appointmentDate := utcMs 2024 12 25 11 0 }]
        inputAt11).response = .error .slotAlreadyBooked
    ∧ (createBooking 0 testNow [cityGeneral] true
        [{ bookingAt10 with appointmentDate := utcMs 2024 12 25 11 0 }]
        inputAt11).db
      = [{ bookingAt10 with appointmentDate := utcMs 2024 12 25 11 0 }] := by
  constructor
  · exact (exact_instant_pending_rejection 0 testNow [cityGeneral] true
      [{ bookingAt10 with appointmentDate := utcMs 2024 12 25 11 0 }]
      inputAt11 (utcMs 2024 12 25 11 0) (by rfl) (by rfl) (by rfl)
      (by decide)).1.mpr (by rfl)
  · exact (exact_instant_pending_rejection 0 testNow [cityGeneral] true
      [{ bookingAt10 with appointmentDate := utcMs 2024 12 25 11 0 }]
      inputAt11 (utcMs 2024 12 25 11 0) (by rfl) (by rfl) (by rfl)
      (by decide)).2 (by rfl)

end OpAPI
